import Mathlib

/-!
Verification development for the shape-refinement and shape-assertion logic of
tensorflow/compiler/xla/python/refine_polymorphic_shapes.cc.

The C++ source is shallowly embedded below:
- MLIR types are modelled by an inductive MType (ranked tensor, unranked
  tensor, non-shaped type); dimensions are static sizes or the dynamic marker.
- a stablehlo CustomCallOp is modelled by the CustomCallOp structure, keeping
  exactly the accessors the source uses (call target name, backend config,
  has_side_effect, the attribute-name list, the error_message attribute, the
  operand list with the outcome of mlir hlo matchInts per operand, and the
  result count).
- walks over functions and modules become folds over lists of GOp, where a GOp
  is either a custom call or some other operation together with its result
  types and region-argument types (everything the static-shape auditor reads).
- pass failure (signalPassFailure) and diagnostics (emitError) become an
  explicit (remaining ops, diagnostics, failed) state threaded by runPassWith.
- external whole-module transformations (inliner, CSE, stablehlo shape
  refinement, dynamism canonicalization, mlir verify) are parameters of the
  orchestrator, exactly as the source treats them as black boxes.
-/

/-- A tensor dimension: a concrete static size or the dynamic-size marker. -/
inductive Dim
  | static (n : Nat)
  | dyn
deriving DecidableEq

/-- Element type of a tensor: a signless integer of a given bit width, or
anything else (the source only inspects signless-integer element types). -/
inductive ElemType
  | signlessInt (width : Nat)
  | other
deriving DecidableEq

/-- An MLIR value type as read by this file: a ranked tensor with a dimension
list, an unranked tensor, or a non-shaped type (for which the source's
dyn_cast to ShapedType fails). -/
inductive MType
  | tensor (dims : List Dim) (elem : ElemType)
  | unranked (elem : ElemType)
  | nontensor
deriving DecidableEq

/-- Mirrors the hasDynamicShape lambda in ValidateStaticShapes: a shaped type
without a fully static shape; non-shaped types report false. -/
def hasDynamicShape (t : MType) : Bool :=
  match t with
  | MType.tensor dims _ => dims.any (fun d => match d with | Dim.dyn => true | _ => false)
  | MType.unranked _ => true
  | MType.nontensor => false

/-- An operand of a custom call: its type, and the outcome of
mlir hlo matchInts on it (some v when it resolves to the static constant v). -/
structure Operand where
  type : MType
  const : Option Int
deriving DecidableEq

/-- The fields of a stablehlo CustomCallOp that the source reads. -/
structure CustomCallOp where
  callTargetName : String
  backendConfig : String
  hasSideEffect : Bool
  attrNames : List String
  errorMessageAttr : Option String
  inputs : List Operand
  numResults : Nat
deriving DecidableEq

def shapeAssertionName : String := "shape_assertion"

def maxErrorMessageInputs : Nat := 4

/-- Mirrors getErrorMessage: reads the error_message string attribute (the
source only calls it when the attribute is known to be present). -/
def getErrorMessage (op : CustomCallOp) : String :=
  op.errorMessageAttr.getD ""

def lbrace : Char := Char.ofNat 123

def rbrace : Char := Char.ofNat 125

/-- Maximal run of decimal digits at the head of the character list, together
with the remainder. -/
def digitRun : List Char → List Char × List Char
  | [] => ([], [])
  | c :: cs =>
    if c.isDigit then
      let p := digitRun cs
      (c :: p.1, p.2)
    else ([], c :: cs)

/-- Terminator characters of the format-specifier regular expression. -/
def isSpecTerm (c : Char) : Bool :=
  c == ',' || c == ':' || c == rbrace

/-- Whether the regular expression of the source, an opening brace followed by
one or more digits followed by a comma, colon or closing brace, matches at the
head of the list; returns the digit run, the terminator and the remainder. -/
def matchHere (s : List Char) : Option (List Char × Char × List Char) :=
  match s with
  | [] => none
  | c :: rest =>
    if c = lbrace then
      match digitRun rest with
      | ([], _) => none
      | (d, t :: r2) => if isSpecTerm t then some (d, t, r2) else none
      | (_, []) => none
    else none

/-- Leftmost match of the format-specifier regular expression: returns the
text before the match, the digit run, the terminator and the text after. -/
def findFirst : List Char → Option (List Char × List Char × Char × List Char)
  | [] => none
  | c :: cs =>
    match matchHere (c :: cs) with
    | some (d, t, r2) => some ([], d, t, r2)
    | none =>
      match findFirst cs with
      | some (pre, d, t, r2) => some (c :: pre, d, t, r2)
      | none => none

/-- Decimal value of a digit run (the source parses it with std stoi; the run
is maximal, so parsing stops exactly at the terminator). -/
def parseDigits (d : List Char) : Nat :=
  d.foldl (fun a c => a * 10 + (c.toNat - 48)) 0

/-- The whole matched specifier text, as the source prints formatSpec[0]. -/
def specifierText (d : List Char) (t : Char) : String :=
  String.mk (lbrace :: (d ++ [t]))

/-- Diagnostic for a format-specifier index outside the valid range. -/
def indexDiag (nr : Nat) (d : List Char) (t : Char) : String :=
  "expects error_message to contain format specifiers with error_message_input index less than "
    ++ toString nr ++ ". Found specifier " ++ specifierText d t

/-- The validate-by-stripping loop at the end of verifyShapeAssertion: find
the first specifier, fail if its index is out of range, otherwise remove the
matched text and repeat. Fuel bounds the loop; every successful iteration
strips at least three characters while using one unit of fuel, so fuel equal
to the string length never runs out. -/
def stripSpecifiers (nr : Nat) : Nat → List Char → Except String Unit
  | 0, _ => Except.ok ()
  | fuel + 1, s =>
    match findFirst s with
    | none => Except.ok ()
    | some (pre, d, t, r2) =>
      if parseDigits d < nr then stripSpecifiers nr fuel (pre ++ r2)
      else Except.error (indexDiag nr d t)

/-- Placeholder-index validation of an error message against the number of
error-message-input operands. -/
def validateMessage (nr : Nat) (msg : String) : Except String Unit :=
  stripSpecifiers nr msg.data.length msg.data

/-- The attribute allow-list of verifyShapeAssertion. -/
def allowedAttr (a : String) : Bool :=
  a == "api_version" || a == "backend_config" || a == "call_target_name" ||
    a == "error_message" || a == "has_side_effect"

/-- First attribute name outside the allow-list, in attribute order. -/
def firstBadAttr : List String → Option String
  | [] => none
  | a :: rest => if allowedAttr a then firstBadAttr rest else some a

/-- Operand #0 contract: ranked, rank 0, signless integer of bit width 1. -/
def isAssertWhatType (t : MType) : Bool :=
  match t with
  | MType.tensor dims (ElemType.signlessInt w) => dims.isEmpty && w == 1
  | _ => false

/-- Operand #1..#k contract: ranked, rank 0, signless integer of width 32 or 64. -/
def isMessageInputType (t : MType) : Bool :=
  match t with
  | MType.tensor dims (ElemType.signlessInt w) => dims.isEmpty && (w == 32 || w == 64)
  | _ => false

/-- Index of the first error-message input whose type violates the contract;
the counter starts at 1 so the returned value is the operand index. -/
def firstBadInputIdx : List Operand → Nat → Option Nat
  | [], _ => none
  | o :: os, i => if isMessageInputType o.type then firstBadInputIdx os (i + 1) else some i

def operandCountDiag : String :=
  "expects 1 <= size(operands) <= " ++ toString (1 + maxErrorMessageInputs)

def assertWhatTypeDiag : String :=
  "expects assert_what (operand #0) to be a constant of type tensor<i1>"

def messageInputTypeDiag (i : Nat) : String :=
  "expects error_message_input (operand #" ++ toString i
    ++ ") to be a constant of type tensor<i32> or tensor<i64>"

/-- Direct embedding of CheckShapeAssertionsPass verifyShapeAssertion: the
checks appear in exactly the source order and the first failure wins. The
empty-operand-list branch inside the match is unreachable, since the first
check already guarantees at least one operand; it re-raises that first
diagnostic so the function stays total. -/
def verifyShapeAssertion (op : CustomCallOp) : Except String Unit :=
  if ¬ (1 ≤ op.inputs.length ∧ op.inputs.length ≤ 1 + maxErrorMessageInputs) then
    Except.error operandCountDiag
  else if op.numResults ≠ 0 then
    Except.error "expects size(results) = 0"
  else
    match firstBadAttr op.attrNames with
    | some a => Except.error (a ++ " is not a supported attribute")
    | none =>
      if op.backendConfig ≠ "" then Except.error "expects an empty backend_config"
      else if op.callTargetName ≠ shapeAssertionName then Except.error "expects @shape_assertion"
      else if op.hasSideEffect = false then Except.error "expects has_side_effect=true"
      else
        match op.inputs with
        | [] => Except.error operandCountDiag
        | a0 :: rest =>
          if ¬ isAssertWhatType a0.type then Except.error assertWhatTypeDiag
          else
            match firstBadInputIdx rest 1 with
            | some i => Except.error (messageInputTypeDiag i)
            | none =>
              if op.errorMessageAttr.isNone then Except.error "expects an error_message attribute"
              else validateMessage rest.length (getErrorMessage op)

def renderInt (v : Int) : List Char :=
  (toString v).data

/-- Substitution core of the external llvm formatv function, modelled from its
documented behaviour for scalar integer arguments as the spec describes it
(section 4.1): each simple placeholder, an opening brace, digits and a closing
brace, is replaced by the decimal rendering of the argument at that index;
out-of-range placeholders are left in place (the passes below only format
messages whose placeholders were validated first). Fuel bounds the scan; each
step consumes at least one character per unit of fuel, so fuel equal to the
length of the template never runs out. -/
def substFuel (args : List Int) : Nat → List Char → List Char
  | 0, s => s
  | _ + 1, [] => []
  | fuel + 1, c :: rest =>
    if c = lbrace then
      match digitRun rest with
      | (d, t :: r2) =>
        if d ≠ [] ∧ t = rbrace then
          if h : parseDigits d < args.length then
            renderInt (args.get ⟨parseDigits d, h⟩) ++ substFuel args fuel r2
          else lbrace :: (d ++ t :: substFuel args fuel r2)
        else c :: substFuel args fuel rest
      | (_, []) => c :: substFuel args fuel rest
    else c :: substFuel args fuel rest

/-- Modelled from the spec: the external llvm formatv call, restricted to the
simple positional placeholders the spec's formatter contract describes. -/
def formatv (tmpl : String) (args : List Int) : String :=
  String.mk (substFuel args tmpl.data.length tmpl.data)

/-- Direct embedding of CheckShapeAssertionsPass formatErrorMessage: a switch
on the number of inputs; zero inputs and more than four inputs both return the
raw template, one to four inputs call formatv with exactly those inputs. -/
def formatErrorMessage (errorMessage : String) (errorMessageInputs : List Int) : String :=
  match errorMessageInputs with
  | [] => errorMessage
  | [a] => formatv errorMessage [a]
  | [a, b] => formatv errorMessage [a, b]
  | [a, b, c] => formatv errorMessage [a, b, c]
  | [a, b, c, d] => formatv errorMessage [a, b, c, d]
  | _ => errorMessage

/-- An operation as seen by the walks: a custom call or some other operation,
together with the result types and region-argument types that the
static-shape auditor reads. -/
structure GOp where
  custom : Option CustomCallOp
  results : List MType
  regionArgs : List (List MType)
deriving DecidableEq

/-- The marker test both passes use: a custom call whose call target name is
the fixed shape-assertion name. -/
def isShapeAssertionOp (g : GOp) : Bool :=
  match g.custom with
  | some c => c.callTargetName == shapeAssertionName
  | none => false

/-- Outcome of processing one marker: whether the walk callback erased it, the
diagnostics it emitted, and whether it called signalPassFailure. -/
structure StepResult where
  erased : Bool
  diags : List String
  failed : Bool
deriving DecidableEq

/-- The loop over operands #1.. of runOnOperation: resolve each error-message
input to a static constant; the first one that does not resolve fails with its
operand index. -/
def resolveInputs : List Operand → Nat → Except Nat (List Int)
  | [], _ => Except.ok []
  | o :: os, i =>
    match o.const with
    | none => Except.error i
    | some v =>
      match resolveInputs os (i + 1) with
      | Except.error j => Except.error j
      | Except.ok vs => Except.ok (v :: vs)

def staticAssertWhatDiag : String := "expects static assert_what (operand #0)"

def staticMessageInputDiag (i : Nat) : String :=
  "expects static error_message_input (operand #" ++ toString i ++ ")"

/-- The body of the walk callback in CheckShapeAssertionsPass runOnOperation,
after the call-target-name test, parameterized by the message formatter so
that theorems can state that the formatter is not consulted on some paths.
The empty-operand branch is unreachable: it is only reached after
verifyShapeAssertion succeeded, which guarantees at least one operand; it
mirrors the non-constant-predicate diagnostic so the function stays total. -/
def processMarkerWith (fmt : String → List Int → String) (enable : Bool)
    (c : CustomCallOp) : StepResult :=
  if ¬ enable then ⟨true, [], false⟩
  else
    match verifyShapeAssertion c with
    | Except.error e => ⟨false, [e], true⟩
    | Except.ok _ =>
      match c.inputs with
      | [] => ⟨false, [staticAssertWhatDiag], true⟩
      | a0 :: rest =>
        match a0.const with
        | none => ⟨false, [staticAssertWhatDiag], true⟩
        | some v =>
          if v ≠ 0 then ⟨true, [], false⟩
          else
            match resolveInputs rest 1 with
            | Except.error i => ⟨false, [staticMessageInputDiag i], true⟩
            | Except.ok vals => ⟨false, [fmt (getErrorMessage c) vals], true⟩

/-- The walk callback body with the formatter of the source. -/
def processMarker (enable : Bool) (c : CustomCallOp) : StepResult :=
  processMarkerWith formatErrorMessage enable c

/-- The whole walk of runOnOperation over the operations of one function: the
callback returns void in the source, so the walk continues past every
operation, including ones whose processing failed; the accumulated state is
the surviving operations, the emitted diagnostics and the pass-failed flag. -/
def runPassWith (fmt : String → List Int → String) (enable : Bool) :
    List GOp → List GOp × List String × Bool
  | [] => ([], [], false)
  | g :: rest =>
    let r := runPassWith fmt enable rest
    match g.custom with
    | some c =>
      if c.callTargetName == shapeAssertionName then
        let s := processMarkerWith fmt enable c
        ((if s.erased then r.1 else g :: r.1), s.diags ++ r.2.1, s.failed || r.2.2)
      else (g :: r.1, r.2.1, r.2.2)
    | none => (g :: r.1, r.2.1, r.2.2)

/-- CheckShapeAssertionsPass runOnOperation over one function body. -/
def runCheckShapeAssertions (enable : Bool) (ops : List GOp) :
    List GOp × List String × Bool :=
  runPassWith formatErrorMessage enable ops

/-- Mirrors the per-operation checks of the ValidateStaticShapes walk: any
result or region argument with a non-static shaped type. -/
def opHasDynamicShapes (g : GOp) : Bool :=
  g.results.any hasDynamicShape || g.regionArgs.any (fun args => args.any hasDynamicShape)

def dynDiag : String := "has dynamic shapes"

def residualDiag : String := "has residual shape assertions"

/-- Diagnostics attached during the full ValidateStaticShapes walk, tagged by
the position of the operation in walk order; the dynamic-shape diagnostic of
an operation precedes its residual-assertion diagnostic, as in the source. -/
def auditDiags : List GOp → Nat → List (Nat × String)
  | [], _ => []
  | g :: rest, i =>
    (if opHasDynamicShapes g then [(i, dynDiag)] else []) ++
      (if isShapeAssertionOp g then [(i, residualDiag)] else []) ++
      auditDiags rest (i + 1)

/-- The failure value of the auditor: the headline chosen by the source plus
the diagnostics drained from the scoped handler. -/
structure AuditFailure where
  headline : String
  diags : List (Nat × String)
deriving DecidableEq

/-- Direct embedding of ValidateStaticShapes: one full walk sets two
independent flags and attaches diagnostics; afterwards the dynamic-shape flag
is consulted first, then the residual-assertion flag; either failure carries
every diagnostic collected during the walk. -/
def ValidateStaticShapes (m : List GOp) : Except AuditFailure Unit :=
  if m.any opHasDynamicShapes then
    Except.error ⟨"Module has dynamic shapes: ", auditDiags m 0⟩
  else if m.any isShapeAssertionOp then
    Except.error ⟨"Module has residual shape assertions: ", auditDiags m 0⟩
  else Except.ok ()

/-- The pass manager: run the pipeline in order, stopping at the first
failing pass. -/
def runPipeline : List (List GOp → Except String (List GOp)) → List GOp →
    Except String (List GOp)
  | [], m => Except.ok m
  | p :: ps, m =>
    match p m with
    | Except.error e => Except.error e
    | Except.ok m2 => runPipeline ps m2

/-- The CheckShapeAssertionsPass as a pipeline step: a failed walk fails the
pass manager with the emitted diagnostics; a successful walk yields the
surviving operations. -/
def checkShapeAssertionsPass (enable : Bool) (m : List GOp) :
    Except String (List GOp) :=
  let r := runCheckShapeAssertions enable m
  if r.2.2 then Except.error (String.intercalate "; " r.2.1) else Except.ok r.1

/-- The distinct failure kinds of RefinePolymorphicShapes. -/
inductive RefineError
  | verificationFailed (msg : String)
  | refinementFailed (msg : String)
  | residual (f : AuditFailure)
deriving DecidableEq

/-- The tail of RefinePolymorphicShapes: hand the refined module to
ValidateStaticShapes and translate its outcome. -/
def finishAudit (m2 : List GOp) : Except RefineError (List GOp) :=
  match ValidateStaticShapes m2 with
  | Except.error f => Except.error (RefineError.residual f)
  | Except.ok _ => Except.ok m2

/-- Direct embedding of the RefinePolymorphicShapes orchestrator: structural
module verification first, then the fixed pipeline (inliner, CSE, stablehlo
shape refinement, dynamism canonicalization, assertion discharge), then the
static-shape audit. The four external transformations and the structural
verifier are black boxes in the source and therefore parameters here; the
returned module models the in-place mutation of the input module. -/
def RefinePolymorphicShapes (verifyModule : List GOp → Bool)
    (inliner cse refineShapes canonicalizeDynamism : List GOp → Except String (List GOp))
    (enableShapeAssertions : Bool) (m : List GOp) : Except RefineError (List GOp) :=
  if ¬ verifyModule m then
    Except.error (RefineError.verificationFailed "Module verification failed: ")
  else
    match runPipeline
        [inliner, cse, refineShapes, canonicalizeDynamism,
          checkShapeAssertionsPass enableShapeAssertions] m with
    | Except.error e =>
      Except.error (RefineError.refinementFailed ("Module shape refinement failed: " ++ e))
    | Except.ok m2 => finishAudit m2

/-- Spec wording, rule 1: operand count in the closed interval [1, 5]. -/
def specRule1 (op : CustomCallOp) : Option String :=
  if 1 ≤ op.inputs.length ∧ op.inputs.length ≤ 1 + maxErrorMessageInputs then none
  else some operandCountDiag

/-- Spec wording, rule 2: result count is zero. -/
def specRule2 (op : CustomCallOp) : Option String :=
  if op.numResults = 0 then none else some "expects size(results) = 0"

/-- Spec wording, rule 3: every attribute name is in the allow-list; the
first offender fails. -/
def specRule3 (op : CustomCallOp) : Option String :=
  match op.attrNames.find? (fun a => ! allowedAttr a) with
  | some a => some (a ++ " is not a supported attribute")
  | none => none

/-- Spec wording, rule 4: the backend-config string is empty. -/
def specRule4 (op : CustomCallOp) : Option String :=
  if op.backendConfig = "" then none else some "expects an empty backend_config"

/-- Spec wording, rule 5: the call target name is the fixed marker name. -/
def specRule5 (op : CustomCallOp) : Option String :=
  if op.callTargetName = shapeAssertionName then none else some "expects @shape_assertion"

/-- Spec wording, rule 6: has-side-effect is true. -/
def specRule6 (op : CustomCallOp) : Option String :=
  if op.hasSideEffect then none else some "expects has_side_effect=true"

/-- Spec wording, rule 7: operand #0 is a rank-0 boolean tensor. -/
def specRule7 (op : CustomCallOp) : Option String :=
  match op.inputs with
  | [] => some assertWhatTypeDiag
  | a0 :: _ => if isAssertWhatType a0.type then none else some assertWhatTypeDiag

/-- Spec wording, rule 8: every operand #1..#k is a rank-0 32- or 64-bit
signless-integer tensor; the first offender fails with its operand index. -/
def specRule8 (op : CustomCallOp) : Option String :=
  match op.inputs with
  | [] => none
  | _ :: rest => (firstBadInputIdx rest 1).map messageInputTypeDiag

/-- Spec wording, rule 9: the error-message attribute is present. -/
def specRule9 (op : CustomCallOp) : Option String :=
  if op.errorMessageAttr.isSome then none else some "expects an error_message attribute"

/-- Spec wording, rule 10: placeholder-index validation of the error message
with inputCount equal to the number of message-input operands. -/
def specRule10 (op : CustomCallOp) : Option String :=
  match validateMessage (op.inputs.length - 1) (getErrorMessage op) with
  | Except.error e => some e
  | Except.ok _ => none

/-- First datum in a list of optional diagnostics, in order. -/
def firstSome : List (Option String) → Option String
  | [] => none
  | o :: os =>
    match o with
    | some e => some e
    | none => firstSome os

/-- The well-formedness checker as the spec words it: the ten rules are
evaluated in the fixed order of section 4.2 and the first violated rule's
diagnostic is returned. -/
def specVerify (op : CustomCallOp) : Except String Unit :=
  match firstSome
      [specRule1 op, specRule2 op, specRule3 op, specRule4 op, specRule5 op,
        specRule6 op, specRule7 op, specRule8 op, specRule9 op, specRule10 op] with
  | some e => Except.error e
  | none => Except.ok ()

def i1Type : MType := MType.tensor [] (ElemType.signlessInt 1)

def i32Type : MType := MType.tensor [] (ElemType.signlessInt 32)

def goodAttrNames : List String :=
  ["api_version", "backend_config", "call_target_name", "error_message", "has_side_effect"]

/-- A well-formed marker with predicate constant v and message inputs 3, 7. -/
def wellFormedMarker (v : Int) : CustomCallOp :=
  { callTargetName := shapeAssertionName
    backendConfig := ""
    hasSideEffect := true
    attrNames := goodAttrNames
    errorMessageAttr := some "bad value {0}, expected {1}"
    inputs := [⟨i1Type, some v⟩, ⟨i32Type, some 3⟩, ⟨i32Type, some 7⟩]
    numResults := 0 }

/-- A marker with six operands, violating rule 1. -/
def sixOperandMarker : CustomCallOp :=
  { callTargetName := shapeAssertionName
    backendConfig := ""
    hasSideEffect := true
    attrNames := goodAttrNames
    errorMessageAttr := some ""
    inputs := [⟨i1Type, some 1⟩, ⟨i32Type, some 1⟩, ⟨i32Type, some 2⟩,
      ⟨i32Type, some 3⟩, ⟨i32Type, some 4⟩, ⟨i32Type, some 5⟩]
    numResults := 0 }

/-- A marker whose message names placeholder index 2 although it has a single
message input, violating rule 10. -/
def badSpecifierMarker : CustomCallOp :=
  { callTargetName := shapeAssertionName
    backendConfig := ""
    hasSideEffect := true
    attrNames := goodAttrNames
    errorMessageAttr := some "{2}"
    inputs := [⟨i1Type, some 0⟩, ⟨i32Type, some 3⟩]
    numResults := 0 }

def markerGOp (c : CustomCallOp) : GOp := ⟨some c, [], []⟩

/-- An ordinary operation with one dynamically shaped result. -/
def dynResultOp : GOp := ⟨none, [MType.tensor [Dim.dyn] (ElemType.signlessInt 32)], []⟩

/-- An ordinary operation with one fully static result. -/
def staticOp : GOp := ⟨none, [MType.tensor [Dim.static 2] (ElemType.signlessInt 32)], []⟩

def idPass : List GOp → Except String (List GOp) := fun m => Except.ok m

def errPass : List GOp → Except String (List GOp) := fun _ => Except.error "E"

def alwaysTrueVerify : List GOp → Bool := fun _ => true

def alwaysFalseVerify : List GOp → Bool := fun _ => false

/-- A degenerate formatter that returns the raw template, used to witness that
some code paths never consult the formatter. -/
def rawTemplate : String → List Int → String := fun msg _ => msg

theorem digitRun_eq (s : List Char) : (digitRun s).1 ++ (digitRun s).2 = s := by
  induction s with
  | nil => rfl
  | cons c cs ih =>
    by_cases h : c.isDigit
    · simpa [digitRun, h] using ih
    · simp [digitRun, h]

theorem substFuel_nil (fuel : Nat) : ∀ s : List Char, substFuel [] fuel s = s := by
  induction fuel with
  | zero => intro s; rfl
  | succ n ih =>
    intro s
    cases s with
    | nil => rfl
    | cons c rest =>
      rw [substFuel]
      by_cases hc : c = lbrace
      · rw [if_pos hc]
        rcases hdr : digitRun rest with ⟨d, r⟩
        cases r with
        | nil => simp [ih]
        | cons t r2 =>
          dsimp only
          by_cases hdt : d ≠ [] ∧ t = rbrace
          · rw [if_pos hdt, dif_neg (by simp)]
            have hsplit := digitRun_eq rest
            rw [hdr] at hsplit
            simp only [ih]
            rw [hc, ← hsplit]
          · rw [if_neg hdt, ih]
      · rw [if_neg hc, ih]

theorem format_eq_formatv (tmpl : String) (args : List Int) (h : args.length ≤ 4) :
    formatErrorMessage tmpl args = formatv tmpl args := by
  match args with
  | [] =>
    show tmpl = formatv tmpl []
    unfold formatv
    rw [substFuel_nil]
  | [a] => rfl
  | [a, b] => rfl
  | [a, b, c] => rfl
  | [a, b, c, d] => rfl
  | a :: b :: c :: d :: e :: rest => simp at h

theorem processMarker_disabled (fmt : String → List Int → String) (c : CustomCallOp) :
    processMarkerWith fmt false c = ⟨true, [], false⟩ := rfl

theorem runPass_no_markers (fmt : String → List Int → String) (enable : Bool) :
    ∀ m : List GOp, m.any isShapeAssertionOp = false →
      runPassWith fmt enable m = (m, [], false) := by
  intro m
  induction m with
  | nil => intro _; rfl
  | cons g rest ih =>
    intro h
    simp only [List.any_cons, Bool.or_eq_false_iff] at h
    have hrest := ih h.2
    cases hc : g.custom with
    | none => simp [runPassWith, hc, hrest]
    | some c =>
      have hname : (c.callTargetName == shapeAssertionName) = false := by
        have := h.1
        simpa [isShapeAssertionOp, hc] using this
      simp [runPassWith, hc, hname, hrest]

theorem resolveInputs_length : ∀ (l : List Operand) (i : Nat) (vals : List Int),
    resolveInputs l i = Except.ok vals → vals.length = l.length := by
  intro l
  induction l with
  | nil =>
    intro i vals h
    simp only [resolveInputs] at h
    cases h
    rfl
  | cons o os ih =>
    intro i vals h
    simp only [resolveInputs] at h
    cases hc : o.const with
    | none => rw [hc] at h; cases h
    | some v =>
      rw [hc] at h
      cases hr : resolveInputs os (i + 1) with
      | error j => rw [hr] at h; cases h
      | ok vs =>
        rw [hr] at h
        cases h
        simp [ih (i + 1) vs hr]

/-- Claim C1 counterexample: with assertions enabled, after the six-operand
marker fails its well-formedness check (its diagnostic is recorded and the
pass is marked failed), the walk still processes the next marker in the same
function: the well-formed marker with a true predicate is verified, evaluated
and erased, so it is absent from the surviving operations. -/
theorem C1_counterexample :
    runCheckShapeAssertions true
        [markerGOp sixOperandMarker, markerGOp (wellFormedMarker 1)] =
      ([markerGOp sixOperandMarker], [operandCountDiag], true) ∧
    markerGOp (wellFormedMarker 1) ∉
      (runCheckShapeAssertions true
        [markerGOp sixOperandMarker, markerGOp (wellFormedMarker 1)]).1 := by
  constructor
  · decide
  · decide

/-- Claim C1 (amended): with assertions enabled, once the well-formedness
check of one marker fails, the pass records that diagnostic and is marked
failed and skips the rest of that marker's own processing, but the walk
continues: every subsequent operation of the function is processed exactly as
it would be on its own. -/
theorem C1_theorem (g : GOp) (c : CustomCallOp) (e : String) (rest : List GOp)
    (hg : g.custom = some c) (hname : c.callTargetName = shapeAssertionName)
    (hv : verifyShapeAssertion c = Except.error e) :
    runCheckShapeAssertions true (g :: rest) =
      (g :: (runCheckShapeAssertions true rest).1,
        e :: (runCheckShapeAssertions true rest).2.1,
        true) := by
  unfold runCheckShapeAssertions
  simp [runPassWith, hg, hname, processMarkerWith, hv]

/-- Witness for C1: the amended claim evaluated on the two-marker function of
the counterexample. -/
theorem C1_witness :
    runCheckShapeAssertions true
        [markerGOp sixOperandMarker, markerGOp (wellFormedMarker 1)] =
      (markerGOp sixOperandMarker ::
          (runCheckShapeAssertions true [markerGOp (wellFormedMarker 1)]).1,
        operandCountDiag ::
          (runCheckShapeAssertions true [markerGOp (wellFormedMarker 1)]).2.1,
        true) :=
  C1_theorem (markerGOp sixOperandMarker) sixOperandMarker operandCountDiag
    [markerGOp (wellFormedMarker 1)] rfl rfl (by rfl)

/-- Claim C3: with assertions enabled, a well-formed marker whose operand #0
resolves to the constant v is erased without any diagnostic when v is
non-zero (the surviving function is exactly what the rest of the walk
produces), and when v is zero the pass formats the message from the resolved
message inputs, attaches it as a diagnostic, marks the pass failed, and keeps
the operation in the function. -/
theorem C3_theorem (g : GOp) (c : CustomCallOp) (a0 : Operand) (rest : List Operand)
    (v : Int) (restOps : List GOp)
    (hg : g.custom = some c) (hname : c.callTargetName = shapeAssertionName)
    (hv : verifyShapeAssertion c = Except.ok ())
    (hin : c.inputs = a0 :: rest) (hconst : a0.const = some v) :
    (v ≠ 0 → runCheckShapeAssertions true (g :: restOps) =
      runCheckShapeAssertions true restOps) ∧
    (v = 0 → ∀ vals, resolveInputs rest 1 = Except.ok vals →
      runCheckShapeAssertions true (g :: restOps) =
        (g :: (runCheckShapeAssertions true restOps).1,
          formatErrorMessage (getErrorMessage c) vals ::
            (runCheckShapeAssertions true restOps).2.1,
          true)) := by
  constructor
  · intro hvne
    unfold runCheckShapeAssertions
    simp [runPassWith, hg, hname, processMarkerWith, hv, hin, hconst, hvne]
  · intro hv0 vals hvals
    subst hv0
    unfold runCheckShapeAssertions
    simp [runPassWith, hg, hname, processMarkerWith, hv, hin, hconst, hvals]

/-- Witness for C3: a one-marker function with a true predicate discharges to
the empty function with no diagnostic and no failure; with predicate zero the
marker survives and the formatted message is the only diagnostic. -/
theorem C3_witness :
    runCheckShapeAssertions true [markerGOp (wellFormedMarker 1)] = ([], [], false) ∧
    runCheckShapeAssertions true [markerGOp (wellFormedMarker 0)] =
      ([markerGOp (wellFormedMarker 0)], ["bad value 3, expected 7"], true) := by
  constructor
  · exact (C3_theorem (markerGOp (wellFormedMarker 1)) (wellFormedMarker 1) _ _ 1 []
      rfl rfl (by rfl) rfl rfl).1 (by decide)
  · exact ((C3_theorem (markerGOp (wellFormedMarker 0)) (wellFormedMarker 0) _ _ 0 []
      rfl rfl (by rfl) rfl rfl).2 rfl [3, 7] (by rfl)).trans (by decide)

/-- Claim C7: with assertions disabled, the pass erases exactly the marker
operations, keeps everything else, emits no diagnostic, and succeeds, for any
function whatsoever, so in particular regardless of the well-formedness or the
predicate values of the markers; and the per-marker handler erases
unconditionally for every formatter and every marker. -/
theorem C7_theorem :
    (∀ ops : List GOp, runCheckShapeAssertions false ops =
      (ops.filter (fun g => ! isShapeAssertionOp g), [], false)) ∧
    (∀ (fmt : String → List Int → String) (c : CustomCallOp),
      processMarkerWith fmt false c = ⟨true, [], false⟩) := by
  constructor
  · intro ops
    induction ops with
    | nil => rfl
    | cons g rest ih =>
      have ih2 : runPassWith formatErrorMessage false rest =
          (rest.filter (fun g => ! isShapeAssertionOp g), [], false) := ih
      cases hc : g.custom with
      | none =>
        have hmark : isShapeAssertionOp g = false := by simp [isShapeAssertionOp, hc]
        simp [runCheckShapeAssertions, runPassWith, hc, List.filter_cons, hmark, ih2]
      | some c =>
        by_cases hname : (c.callTargetName == shapeAssertionName) = true
        · have hmark : isShapeAssertionOp g = true := by simp [isShapeAssertionOp, hc, hname]
          simp [runCheckShapeAssertions, runPassWith, hc, hname,
            processMarker_disabled, List.filter_cons, hmark, ih2]
        · have hmark : isShapeAssertionOp g = false := by
            simp [isShapeAssertionOp, hc]
            simpa using hname
          simp [runCheckShapeAssertions, runPassWith, hc, hname,
            List.filter_cons, hmark, ih2]
  · intro fmt c
    exact processMarker_disabled fmt c

theorem auditDiags_mem_dyn : ∀ (m : List GOp) (i0 i : Nat) (h : i < m.length),
    opHasDynamicShapes (m.get ⟨i, h⟩) = true → (i0 + i, dynDiag) ∈ auditDiags m i0 := by
  intro m
  induction m with
  | nil => intro i0 i h; simp at h
  | cons g rest ih =>
    intro i0 i h hop
    cases i with
    | zero =>
      have hg : opHasDynamicShapes g = true := hop
      simp [auditDiags, hg]
    | succ j =>
      have hj : j < rest.length := Nat.lt_of_succ_lt_succ h
      have hop2 : opHasDynamicShapes (rest.get ⟨j, hj⟩) = true := hop
      have hmem := ih (i0 + 1) j hj hop2
      have heq : i0 + 1 + j = i0 + (j + 1) := by omega
      rw [heq] at hmem
      simp only [auditDiags]
      exact List.mem_append_right _ hmem

theorem auditDiags_mem_res : ∀ (m : List GOp) (i0 i : Nat) (h : i < m.length),
    isShapeAssertionOp (m.get ⟨i, h⟩) = true → (i0 + i, residualDiag) ∈ auditDiags m i0 := by
  intro m
  induction m with
  | nil => intro i0 i h; simp at h
  | cons g rest ih =>
    intro i0 i h hop
    cases i with
    | zero =>
      have hg : isShapeAssertionOp g = true := hop
      simp [auditDiags, hg]
    | succ j =>
      have hj : j < rest.length := Nat.lt_of_succ_lt_succ h
      have hop2 : isShapeAssertionOp (rest.get ⟨j, hj⟩) = true := hop
      have hmem := ih (i0 + 1) j hj hop2
      have heq : i0 + 1 + j = i0 + (j + 1) := by omega
      rw [heq] at hmem
      simp only [auditDiags]
      exact List.mem_append_right _ hmem

theorem any_dyn_diag : ∀ (m : List GOp) (i0 : Nat), m.any opHasDynamicShapes = true →
    ∃ i, (i, dynDiag) ∈ auditDiags m i0 := by
  intro m
  induction m with
  | nil => intro i0 h; simp at h
  | cons g rest ih =>
    intro i0 h
    simp only [List.any_cons, Bool.or_eq_true] at h
    cases h with
    | inl hg => exact ⟨i0, by simp [auditDiags, hg]⟩
    | inr hr =>
      obtain ⟨i, hi⟩ := ih (i0 + 1) hr
      exact ⟨i, by simp only [auditDiags]; exact List.mem_append_right _ hi⟩

theorem any_res_diag : ∀ (m : List GOp) (i0 : Nat), m.any isShapeAssertionOp = true →
    ∃ i, (i, residualDiag) ∈ auditDiags m i0 := by
  intro m
  induction m with
  | nil => intro i0 h; simp at h
  | cons g rest ih =>
    intro i0 h
    simp only [List.any_cons, Bool.or_eq_true] at h
    cases h with
    | inl hg => exact ⟨i0, by simp [auditDiags, hg]⟩
    | inr hr =>
      obtain ⟨i, hi⟩ := ih (i0 + 1) hr
      exact ⟨i, by simp only [auditDiags]; exact List.mem_append_right _ hi⟩

/-- Claim C2: on a module with at least one dynamically shaped operation and
at least one residual marker, one call to the auditor returns a single
failure, whose diagnostic list covers every offending operation of the whole
walk (no early stop) and contains both the dynamic-shape condition and the
residual-assertion condition. -/
theorem C2_theorem (m : List GOp)
    (hdyn : m.any opHasDynamicShapes = true)
    (hres : m.any isShapeAssertionOp = true) :
    ValidateStaticShapes m =
      Except.error ⟨"Module has dynamic shapes: ", auditDiags m 0⟩ ∧
    (∀ i, ∀ h : i < m.length, opHasDynamicShapes (m.get ⟨i, h⟩) = true →
      (i, dynDiag) ∈ auditDiags m 0) ∧
    (∀ i, ∀ h : i < m.length, isShapeAssertionOp (m.get ⟨i, h⟩) = true →
      (i, residualDiag) ∈ auditDiags m 0) ∧
    (∃ i, (i, dynDiag) ∈ auditDiags m 0) ∧
    (∃ i, (i, residualDiag) ∈ auditDiags m 0) := by
  refine ⟨?_, ?_, ?_, any_dyn_diag m 0 hdyn, any_res_diag m 0 hres⟩
  · simp [ValidateStaticShapes, hdyn]
  · intro i h hop
    simpa using auditDiags_mem_dyn m 0 i h hop
  · intro i h hop
    simpa using auditDiags_mem_res m 0 i h hop

/-- Witness for C2: a module with one dynamic-shaped result and one residual
marker fails with diagnostics reporting both conditions in the one call. -/
theorem C2_witness :
    ValidateStaticShapes [dynResultOp, markerGOp (wellFormedMarker 1)] =
      Except.error ⟨"Module has dynamic shapes: ",
        auditDiags [dynResultOp, markerGOp (wellFormedMarker 1)] 0⟩ ∧
    (∃ i, (i, dynDiag) ∈ auditDiags [dynResultOp, markerGOp (wellFormedMarker 1)] 0) ∧
    (∃ i, (i, residualDiag) ∈ auditDiags [dynResultOp, markerGOp (wellFormedMarker 1)] 0) := by
  have h := C2_theorem [dynResultOp, markerGOp (wellFormedMarker 1)] (by decide) (by decide)
  exact ⟨h.1, h.2.2.2.1, h.2.2.2.2⟩

/-- Claim C5: with zero to four integer inputs the formatter substitutes each
placeholder by the decimal rendering of the corresponding input (it agrees
with the formatv substitution model); with more than four inputs it returns
the raw template unchanged; and the concrete example of the spec formats to
exactly the expected text. -/
theorem C5_theorem :
    (∀ (tmpl : String) (args : List Int), args.length ≤ 4 →
      formatErrorMessage tmpl args = formatv tmpl args) ∧
    (∀ (tmpl : String) (args : List Int), 4 < args.length →
      formatErrorMessage tmpl args = tmpl) ∧
    formatErrorMessage "bad value {0}, expected {1}" [3, 7] = "bad value 3, expected 7" := by
  refine ⟨fun tmpl args h => format_eq_formatv tmpl args h, ?_, by rfl⟩
  intro tmpl args h
  match args with
  | a :: b :: c :: d :: e :: rest => rfl
  | [] => simp at h
  | [a] => simp at h
  | [a, b] => simp at h
  | [a, b, c] => simp at h
  | [a, b, c, d] => simp at h

/-- Witness for C5: the substitution branch at zero inputs and the raw-return
branch at five inputs, both at concrete values. -/
theorem C5_witness :
    formatErrorMessage "ab" ([] : List Int) = formatv "ab" [] ∧
    formatErrorMessage "xy" ([1, 2, 3, 4, 5] : List Int) = "xy" :=
  ⟨C5_theorem.1 "ab" [] (by decide), C5_theorem.2.1 "xy" [1, 2, 3, 4, 5] (by decide)⟩

/-- Claim C6: whenever the next-scanned placeholder of the working template
parses to an index at least the input count, the validation loop fails at
that very step with the diagnostic naming the offending specifier and the
valid bound; and for a marker whose well-formedness check fails (in
particular by that rule) the result of processing the marker is the same for
every formatter, so the formatting function is never invoked. -/
theorem C6_theorem :
    (∀ (nr : Nat) (s pre d : List Char) (t : Char) (r2 : List Char),
      findFirst s = some (pre, d, t, r2) → nr ≤ parseDigits d →
      validateMessage nr (String.mk s) = Except.error (indexDiag nr d t)) ∧
    (∀ (op : CustomCallOp) (e : String) (f g : String → List Int → String),
      verifyShapeAssertion op = Except.error e →
      processMarkerWith f true op = processMarkerWith g true op) := by
  constructor
  · intro nr s pre d t r2 hf hn
    cases s with
    | nil => simp [findFirst] at hf
    | cons c cs =>
      show stripSpecifiers nr (c :: cs).length (c :: cs) = _
      rw [List.length_cons]
      simp only [stripSpecifiers, hf]
      rw [if_neg (by omega)]
  · intro op e f g hv
    simp [processMarkerWith, hv]

/-- Witness for C6: the template consisting of specifier index 2 validated
against one input fails with the named specifier, and the ill-formed marker
with that template is processed identically under the real formatter and the
degenerate one. -/
theorem C6_witness :
    validateMessage 1 (String.mk ("{2}".data)) =
      Except.error (indexDiag 1 ("2".data) rbrace) ∧
    processMarkerWith formatErrorMessage true badSpecifierMarker =
      processMarkerWith rawTemplate true badSpecifierMarker :=
  ⟨C6_theorem.1 1 ("{2}".data) [] ("2".data) rbrace [] (by rfl) (by decide),
    C6_theorem.2 badSpecifierMarker (indexDiag 1 ("2".data) rbrace)
      formatErrorMessage rawTemplate (by rfl)⟩

theorem firstBadAttr_eq_find : ∀ l : List String,
    firstBadAttr l = l.find? (fun a => ! allowedAttr a) := by
  intro l
  induction l with
  | nil => rfl
  | cons a rest ih =>
    by_cases h : allowedAttr a
    · simp [firstBadAttr, List.find?_cons, h, ih]
    · simp [firstBadAttr, List.find?_cons, h]

/-- Claim C4: the well-formedness checker equals the spec's chain of ten
rules evaluated in the fixed order with the first violated rule's diagnostic
returned; in particular a marker with six operands is rejected by rule 1, and
processing such a marker ends in that diagnostic without its predicate ever
being evaluated (the outcome is the same for every formatter and every
operand content). -/
theorem C4_theorem :
    (∀ op : CustomCallOp, verifyShapeAssertion op = specVerify op) ∧
    (∀ op : CustomCallOp, op.inputs.length = 6 →
      verifyShapeAssertion op = Except.error operandCountDiag ∧
      ∀ fmt : String → List Int → String,
        processMarkerWith fmt true op = ⟨false, [operandCountDiag], true⟩) := by
  constructor
  · intro op
    by_cases h1 : 1 ≤ op.inputs.length ∧ op.inputs.length ≤ 1 + maxErrorMessageInputs
    · by_cases h2 : op.numResults = 0
      · cases h3 : firstBadAttr op.attrNames with
        | some a =>
          simp [verifyShapeAssertion, specVerify, firstSome, specRule1, specRule2,
            specRule3, h1, h2, ← firstBadAttr_eq_find, h3]
        | none =>
          by_cases h4 : op.backendConfig = ""
          · by_cases h5 : op.callTargetName = shapeAssertionName
            · by_cases h6 : op.hasSideEffect
              · cases hin : op.inputs with
                | nil => rw [hin] at h1; simp at h1
                | cons a0 rest =>
                  have hle : rest.length + 1 ≤ 1 + maxErrorMessageInputs := by
                    rw [hin] at h1
                    simpa using h1.2
                  have hnlt : ¬ (1 + maxErrorMessageInputs < rest.length + 1) := by omega
                  by_cases h7 : isAssertWhatType a0.type
                  · cases h8 : firstBadInputIdx rest 1 with
                    | some i =>
                      simp [verifyShapeAssertion, specVerify, firstSome, specRule1,
                        specRule2, specRule3, specRule4, specRule5, specRule6,
                        specRule7, specRule8, h1, h2, ← firstBadAttr_eq_find, h3,
                        h4, h5, h6, hin, h7, h8, hle, hnlt]
                    | none =>
                      cases h9 : op.errorMessageAttr with
                      | none =>
                        simp [verifyShapeAssertion, specVerify, firstSome, specRule1,
                          specRule2, specRule3, specRule4, specRule5, specRule6,
                          specRule7, specRule8, specRule9, h1, h2,
                          ← firstBadAttr_eq_find, h3, h4, h5, h6, hin, h7, h8, h9, hle, hnlt]
                      | some msg =>
                        cases h10 : validateMessage rest.length (getErrorMessage op) with
                        | error e =>
                          simp [verifyShapeAssertion, specVerify, firstSome, specRule1,
                            specRule2, specRule3, specRule4, specRule5, specRule6,
                            specRule7, specRule8, specRule9, specRule10, h1, h2,
                            ← firstBadAttr_eq_find, h3, h4, h5, h6, hin, h7, h8, h9, h10, hle, hnlt]
                        | ok u =>
                          simp [verifyShapeAssertion, specVerify, firstSome, specRule1,
                            specRule2, specRule3, specRule4, specRule5, specRule6,
                            specRule7, specRule8, specRule9, specRule10, h1, h2,
                            ← firstBadAttr_eq_find, h3, h4, h5, h6, hin, h7, h8, h9, h10, hle, hnlt]
                  · simp [verifyShapeAssertion, specVerify, firstSome, specRule1,
                      specRule2, specRule3, specRule4, specRule5, specRule6, specRule7,
                      h1, h2, ← firstBadAttr_eq_find, h3, h4, h5, h6, hin, h7, hle, hnlt]
              · simp [verifyShapeAssertion, specVerify, firstSome, specRule1, specRule2,
                  specRule3, specRule4, specRule5, specRule6, h1, h2,
                  ← firstBadAttr_eq_find, h3, h4, h5, h6]
            · simp [verifyShapeAssertion, specVerify, firstSome, specRule1, specRule2,
                specRule3, specRule4, specRule5, h1, h2, ← firstBadAttr_eq_find, h3,
                h4, h5]
          · simp [verifyShapeAssertion, specVerify, firstSome, specRule1, specRule2,
              specRule3, specRule4, h1, h2, ← firstBadAttr_eq_find, h3, h4]
      · simp [verifyShapeAssertion, specVerify, firstSome, specRule1, specRule2, h1, h2]
    · simp [verifyShapeAssertion, specVerify, firstSome, specRule1, h1]
  · intro op hlen
    have hcond : ¬ (1 ≤ op.inputs.length ∧ op.inputs.length ≤ 1 + maxErrorMessageInputs) := by
      rw [hlen]
      simp [maxErrorMessageInputs]
    have hv : verifyShapeAssertion op = Except.error operandCountDiag := by
      simp [verifyShapeAssertion, hcond]
    refine ⟨hv, ?_⟩
    intro fmt
    simp [processMarkerWith, hv]

/-- Witness for C4: the six-operand marker is rejected with the rule-1
diagnostic, and processing it under a degenerate formatter yields exactly
that diagnostic with the pass failed and the marker kept. -/
theorem C4_witness :
    verifyShapeAssertion sixOperandMarker = Except.error operandCountDiag ∧
    processMarkerWith rawTemplate true sixOperandMarker =
      ⟨false, [operandCountDiag], true⟩ :=
  ⟨(C4_theorem.2 sixOperandMarker rfl).1, (C4_theorem.2 sixOperandMarker rfl).2 rawTemplate⟩

/-- Claim C8: the orchestrator verifies the module before any pass and on
verification failure returns the aggregate failure whatever the pipeline
passes are (nothing downstream is attempted); a failing pipeline step
short-circuits the pass manager whatever the later steps are; a failed
pipeline makes the orchestrator return the single aggregate refinement
failure; and the auditor decides the result exactly when every pipeline step
has succeeded. -/
theorem C8_theorem :
    (∀ (v : List GOp → Bool) (p1 p2 p3 p4 : List GOp → Except String (List GOp))
        (e : Bool) (m : List GOp), v m = false →
      RefinePolymorphicShapes v p1 p2 p3 p4 e m =
        Except.error (RefineError.verificationFailed "Module verification failed: ")) ∧
    (∀ (p : List GOp → Except String (List GOp))
        (ps : List (List GOp → Except String (List GOp))) (m : List GOp) (e : String),
      p m = Except.error e → runPipeline (p :: ps) m = Except.error e) ∧
    (∀ (v : List GOp → Bool) (p1 p2 p3 p4 : List GOp → Except String (List GOp))
        (e : Bool) (m : List GOp) (msg : String), v m = true →
      runPipeline [p1, p2, p3, p4, checkShapeAssertionsPass e] m = Except.error msg →
      RefinePolymorphicShapes v p1 p2 p3 p4 e m =
        Except.error (RefineError.refinementFailed
          ("Module shape refinement failed: " ++ msg))) ∧
    (∀ (v : List GOp → Bool) (p1 p2 p3 p4 : List GOp → Except String (List GOp))
        (e : Bool) (m m2 : List GOp), v m = true →
      runPipeline [p1, p2, p3, p4, checkShapeAssertionsPass e] m = Except.ok m2 →
      RefinePolymorphicShapes v p1 p2 p3 p4 e m = finishAudit m2) := by
  refine ⟨?_, ?_, ?_, ?_⟩
  · intro v p1 p2 p3 p4 e m hv
    simp [RefinePolymorphicShapes, hv]
  · intro p ps m e hp
    simp [runPipeline, hp]
  · intro v p1 p2 p3 p4 e m msg hv hrun
    simp [RefinePolymorphicShapes, hv, hrun]
  · intro v p1 p2 p3 p4 e m m2 hv hrun
    simp [RefinePolymorphicShapes, hv, hrun]

/-- Witness for C8: concrete instantiations of the four parts with identity
and failing passes on the empty module. -/
theorem C8_witness :
    RefinePolymorphicShapes alwaysFalseVerify idPass idPass idPass idPass true [] =
      Except.error (RefineError.verificationFailed "Module verification failed: ") ∧
    runPipeline [errPass] [] = Except.error "E" ∧
    RefinePolymorphicShapes alwaysTrueVerify errPass idPass idPass idPass true [] =
      Except.error (RefineError.refinementFailed ("Module shape refinement failed: " ++ "E")) ∧
    RefinePolymorphicShapes alwaysTrueVerify idPass idPass idPass idPass true [] =
      finishAudit [] :=
  ⟨C8_theorem.1 alwaysFalseVerify idPass idPass idPass idPass true [] rfl,
    C8_theorem.2.1 errPass [] [] "E" rfl,
    C8_theorem.2.2.1 alwaysTrueVerify errPass idPass idPass idPass true [] "E" rfl (by rfl),
    C8_theorem.2.2.2 alwaysTrueVerify idPass idPass idPass idPass true [] [] rfl (by rfl)⟩

/-- Claim C9: on a module that passes structural verification, is fully
static, carries no markers, and on which each external pipeline pass acts as
the identity, Refine succeeds returning the module unchanged, and running
Refine again on the result succeeds again with the module still unchanged. -/
theorem C9_theorem (v : List GOp → Bool)
    (p1 p2 p3 p4 : List GOp → Except String (List GOp)) (e : Bool) (m : List GOp)
    (hv : v m = true)
    (h1 : p1 m = Except.ok m) (h2 : p2 m = Except.ok m)
    (h3 : p3 m = Except.ok m) (h4 : p4 m = Except.ok m)
    (hdyn : m.any opHasDynamicShapes = false)
    (hres : m.any isShapeAssertionOp = false) :
    RefinePolymorphicShapes v p1 p2 p3 p4 e m = Except.ok m ∧
    (RefinePolymorphicShapes v p1 p2 p3 p4 e m).bind
        (RefinePolymorphicShapes v p1 p2 p3 p4 e) = Except.ok m := by
  have hpass : checkShapeAssertionsPass e m = Except.ok m := by
    have h := runPass_no_markers formatErrorMessage e m hres
    simp [checkShapeAssertionsPass, runCheckShapeAssertions, h]
  have hval : ValidateStaticShapes m = Except.ok () := by
    simp [ValidateStaticShapes, hdyn, hres]
  have hmain : RefinePolymorphicShapes v p1 p2 p3 p4 e m = Except.ok m := by
    simp [RefinePolymorphicShapes, hv, runPipeline, h1, h2, h3, h4, hpass,
      finishAudit, hval]
  refine ⟨hmain, ?_⟩
  rw [hmain]
  simpa [Except.bind] using hmain

/-- Witness for C9: a one-operation fully static, marker-free module under
identity external passes refines to itself twice. -/
theorem C9_witness :
    RefinePolymorphicShapes alwaysTrueVerify idPass idPass idPass idPass true [staticOp] =
      Except.ok [staticOp] ∧
    (RefinePolymorphicShapes alwaysTrueVerify idPass idPass idPass idPass true
        [staticOp]).bind
        (RefinePolymorphicShapes alwaysTrueVerify idPass idPass idPass idPass true) =
      Except.ok [staticOp] :=
  C9_theorem alwaysTrueVerify idPass idPass idPass idPass true [staticOp]
    rfl rfl rfl rfl rfl (by decide) (by decide)

/-- Claim C10: a marker that passes the well-formedness check has at most
four message-input operands, so on the violated-assertion path the resolved
input list has length at most four and the formatter takes a substitution
branch (it agrees with the formatv substitution), never the raw-template
fallback for more than four inputs. -/
theorem C10_theorem (op : CustomCallOp) (hv : verifyShapeAssertion op = Except.ok ()) :
    op.inputs.length - 1 ≤ maxErrorMessageInputs ∧
    (∀ (a0 : Operand) (rest : List Operand) (vals : List Int),
      op.inputs = a0 :: rest → resolveInputs rest 1 = Except.ok vals →
      vals.length ≤ maxErrorMessageInputs ∧
      formatErrorMessage (getErrorMessage op) vals = formatv (getErrorMessage op) vals) := by
  have hlen : 1 ≤ op.inputs.length ∧ op.inputs.length ≤ 1 + maxErrorMessageInputs := by
    by_cases h : 1 ≤ op.inputs.length ∧ op.inputs.length ≤ 1 + maxErrorMessageInputs
    · exact h
    · simp [verifyShapeAssertion, h] at hv
  constructor
  · omega
  · intro a0 rest vals hin hres
    have hr : vals.length = rest.length := resolveInputs_length rest 1 vals hres
    have hrle : rest.length ≤ maxErrorMessageInputs := by
      rw [hin] at hlen
      simp at hlen
      omega
    have hvle : vals.length ≤ maxErrorMessageInputs := by omega
    refine ⟨hvle, format_eq_formatv _ _ ?_⟩
    have : maxErrorMessageInputs = 4 := rfl
    omega

/-- Witness for C10: the well-formed marker with predicate zero resolves two
message inputs; two is within the bound and its formatting agrees with the
substitution model. -/
theorem C10_witness :
    (wellFormedMarker 0).inputs.length - 1 ≤ maxErrorMessageInputs ∧
    ([3, 7] : List Int).length ≤ maxErrorMessageInputs ∧
    formatErrorMessage (getErrorMessage (wellFormedMarker 0)) [3, 7] =
      formatv (getErrorMessage (wellFormedMarker 0)) [3, 7] := by
  have h := C10_theorem (wellFormedMarker 0) (by rfl)
  exact ⟨h.1, (h.2 _ _ [3, 7] rfl (by rfl)).1, (h.2 _ _ [3, 7] rfl (by rfl)).2⟩
